import Mathlib

/-!
Shallow embedding of the django_dynamic_filters filter-resolution engine
(src/django_dynamic_filters/filters.py and utils/constants.py) together
with theorems settling the frozen claims about it.

Request data is modelled with QueryDict semantics (each key maps to the
ordered list of its values), JSON values as an inductive Value type with
Python float modelled as Rat, Django Q objects as a predicate tree, and
the queryable-collection collaborator as a list of rows filtered by an
evaluator.  The transport decoding of the advanced-filter parameter
(urllib parse.unquote followed by json.loads, both Python stdlib) is an
external collaborator and enters the model as an explicit decode function
on the filter state.
-/

namespace DynamicFilters

/-- Constants from utils/constants.py. -/
def SEARCH_PARAM : String := "search"

def ORDERING_PARAM : String := "ordering"

def DEFAULT_ORDERING : String := "-id"

def ADVANCED_FILTER_PARAM : String := "filter"

def DATE_RANGE_SUFFIXES : List String := ["_min", "_max"]

/-- Values flowing through the engine: request parameter values (strings or
lists of strings under QueryDict semantics), JSON leaf values from the
advanced filter, coerced values, and parsed dates/datetimes.  Python float
is modelled as Rat (the claims never depend on binary rounding). -/
inductive Value where
  | vStr (s : String)
  | vInt (n : Int)
  | vRat (q : Rat)
  | vBool (b : Bool)
  | vList (l : List Value)
  | vDate (y m d : Nat)
  | vDateTime (y m d hh mm ss : Nat)

/-- Python truthiness of a Value (used for `if value:` style tests). -/
def pyTruthy : Value → Bool
  | .vStr s => s != ""
  | .vInt n => n != 0
  | .vRat q => q != 0
  | .vBool b => b
  | .vList l => !l.isEmpty
  | .vDate _ _ _ => true
  | .vDateTime _ _ _ _ _ _ => true

/-! String helpers.  The embedding uses structurally recursive character
list implementations of the Python string operations the engine relies on
(split, strip, startswith, endswith, lower, upper, containment), with the
usual ASCII semantics. -/

/-- Prefix test on character lists. -/
def charsHavePre : List Char → List Char → Bool
  | [], _ => true
  | _ :: _, [] => false
  | a :: as, b :: bs => a == b && charsHavePre as bs

/-- Needle occurs inside haystack. -/
def charsInfix (needle : List Char) : List Char → Bool
  | [] => charsHavePre needle []
  | b :: bs => charsHavePre needle (b :: bs) || charsInfix needle bs

/-- str.split(sep) on character lists: separators delimit (possibly
empty) fields. -/
def splitCharsAux (sep : Char) : List Char → List Char → List (List Char)
  | [], acc => [acc.reverse]
  | c :: cs, acc =>
    if c == sep then acc.reverse :: splitCharsAux sep cs []
    else splitCharsAux sep cs (c :: acc)

/-- str.split(sep). -/
def strSplitOn (sep : Char) (s : String) : List String :=
  (splitCharsAux sep s.toList []).map List.asString

/-- startswith. -/
def strStartsWith (s pre : String) : Bool :=
  charsHavePre pre.toList s.toList

/-- endswith. -/
def strEndsWith (s suf : String) : Bool :=
  charsHavePre suf.toList.reverse s.toList.reverse

/-- Drop the first n characters. -/
def strDropN (s : String) (n : Nat) : String :=
  (s.toList.drop n).asString

/-- Drop the last n characters. -/
def strDropRightN (s : String) (n : Nat) : String :=
  (s.toList.take (s.toList.length - n)).asString

/-- ASCII lower-casing of one character. -/
def charToLower (c : Char) : Char :=
  if 'A' ≤ c && c ≤ 'Z' then Char.ofNat (c.toNat + 32) else c

/-- ASCII upper-casing of one character. -/
def charToUpper (c : Char) : Char :=
  if 'a' ≤ c && c ≤ 'z' then Char.ofNat (c.toNat - 32) else c

/-- str.lower(). -/
def strLower (s : String) : String :=
  (s.toList.map charToLower).asString

/-- str.upper(). -/
def strUpper (s : String) : String :=
  (s.toList.map charToUpper).asString

/-- Membership of a character in a string. -/
def strContainsChar (s : String) (c : Char) : Bool :=
  s.toList.contains c

/-- Character count. -/
def strLen (s : String) : Nat := s.toList.length

/-- Case-insensitive substring containment on strings. -/
def strContainsCI (hay needle : String) : Bool :=
  charsInfix (needle.toList.map charToLower) (hay.toList.map charToLower)

/-- Request data with QueryDict semantics: each parameter name maps to the
ordered list of its values; iteration order is list order. -/
abbrev Request := List (String × List String)

/-- QueryDict.getlist: all values for a key, empty list when absent. -/
def getlist (req : Request) (k : String) : List String :=
  match req.find? (fun kv => kv.1 == k) with
  | some kv => kv.2
  | none => []

/-- ModelFilter._get_field_values on a QueryDict: more than one value gives
the list, exactly one gives the scalar, none gives None. -/
def get_field_values (req : Request) (k : String) : Option Value :=
  match getlist req k with
  | [] => none
  | [v] => some (.vStr v)
  | vs => some (.vList (vs.map Value.vStr))

/-- Python `key in request_data` membership test. -/
def req_has_key (req : Request) (k : String) : Bool :=
  (req.find? (fun kv => kv.1 == k)).isSome

/-- QueryDict.__getitem__: the last value for the key. -/
def req_item (req : Request) (k : String) : Option String :=
  (getlist req k).getLast?

/-- Characters stripped by Python str.strip / int / float parsing. -/
def isPySpace (c : Char) : Bool :=
  c = ' ' || c = '\t' || c = '\n' || c = '\r' || c = '\x0b' || c = '\x0c'

/-- Leading and trailing whitespace removed, as a character list. -/
def stripChars (s : String) : List Char :=
  ((s.toList.dropWhile isPySpace).reverse.dropWhile isPySpace).reverse

/-- str.strip(): surrounding whitespace removed. -/
def strTrim (s : String) : String := (stripChars s).asString

/-- Numeric value of a digit list; none when empty or not all digits. -/
def digitsVal : List Char → Option Nat
  | [] => none
  | cs =>
    if cs.all Char.isDigit then
      some (cs.foldl (fun a c => a * 10 + (c.toNat - 48)) 0)
    else none

/-- Python int() applied to a string: optional sign then base-10 digits,
surrounding whitespace ignored; none models ValueError.  (Digit-group
underscores, accepted by CPython, are outside the modelled grammar.) -/
def pyParseInt (s : String) : Option Int :=
  match stripChars s with
  | '+' :: rest => (digitsVal rest).map (fun n => (n : Int))
  | '-' :: rest => (digitsVal rest).map (fun n => -(n : Int))
  | cs => (digitsVal cs).map (fun n => (n : Int))

/-- Digits prefix of a character list together with the rest. -/
def takeDigits (cs : List Char) : List Char × List Char :=
  (cs.takeWhile Char.isDigit, cs.dropWhile Char.isDigit)

/-- Numeric value of an all-digit character list. -/
def natOfDigits (cs : List Char) : Nat :=
  cs.foldl (fun a c => a * 10 + (c.toNat - 48)) 0

/-- Exponent suffix of a float literal: optional sign then digits, with
nothing left over. -/
def expPart (r : List Char) : Option Int :=
  let esr : Int × List Char :=
    match r with
    | '+' :: r2 => (1, r2)
    | '-' :: r2 => (-1, r2)
    | r2 => (1, r2)
  let (ed, r3) := takeDigits esr.2
  if ed.isEmpty || !r3.isEmpty then none
  else some (esr.1 * (natOfDigits ed : Int))

/-- Syntactic part of Python float() on a string: optional sign, integer
and/or fractional digit groups, optional exponent, surrounding whitespace
ignored.  Returns the signed mantissa read as an integer, the count of
fractional digits, and the exponent, so the value is
mantissa / 10 ^ fracDigits * 10 ^ exponent; none models ValueError. -/
def pyParseFloatRepr (s : String) : Option (Int × Nat × Int) :=
  let cs := stripChars s
  let sgncs : Int × List Char :=
    match cs with
    | '+' :: r => (1, r)
    | '-' :: r => (-1, r)
    | r => (1, r)
  let sgn := sgncs.1
  let (ip, rest1) := takeDigits sgncs.2
  let fprest : Option (List Char) × List Char :=
    match rest1 with
    | '.' :: r => let (d, r2) := takeDigits r; (some d, r2)
    | r => (none, r)
  let fp := fprest.1
  let rest2 := fprest.2
  if ip.isEmpty && (match fp with | some d => d.isEmpty | none => true) then none
  else
    let fdigits := match fp with | some d => d | none => []
    let mant : Int := sgn * (natOfDigits (ip ++ fdigits) : Int)
    match rest2 with
    | [] => some (mant, fdigits.length, 0)
    | 'e' :: r => (expPart r).map (fun e => (mant, fdigits.length, e))
    | 'E' :: r => (expPart r).map (fun e => (mant, fdigits.length, e))
    | _ => none

/-- Python float() applied to a string, for finite decimal literals; none
models ValueError.  (inf/nan and digit-group underscores are outside the
modelled grammar, which covers the finite rational literals.) -/
def pyParseFloat (s : String) : Option Rat :=
  (pyParseFloatRepr s).map
    (fun t => (t.1 : Rat) / (10 : Rat) ^ t.2.1 * (10 : Rat) ^ t.2.2)

/-! FieldTypeRegistry (filters.py lines 25-136). -/

/-- FieldTypeRegistry.DEFAULT_LOOKUPS: default lookup per semantic type. -/
def DEFAULT_LOOKUPS : List (String × String) :=
  [("text", "icontains"), ("integer", "exact"), ("decimal", "exact"),
   ("boolean", "exact"), ("date", "exact"), ("datetime", "exact"),
   ("enum", "exact"), ("relation", "exact"), ("array", "contains"),
   ("json", "has_key")]

/-- FieldTypeRegistry.DJANGO_TYPE_MAPPING: Django internal types to
simplified semantic types. -/
def DJANGO_TYPE_MAPPING : List (String × String) :=
  [("CharField", "text"), ("TextField", "text"), ("SlugField", "text"),
   ("EmailField", "text"), ("URLField", "text"), ("FileField", "text"),
   ("FilePathField", "text"), ("IntegerField", "integer"),
   ("PositiveIntegerField", "integer"), ("SmallIntegerField", "integer"),
   ("BigIntegerField", "integer"), ("AutoField", "integer"),
   ("BigAutoField", "integer"), ("FloatField", "decimal"),
   ("DecimalField", "decimal"), ("BooleanField", "boolean"),
   ("NullBooleanField", "boolean"), ("DateField", "date"),
   ("DateTimeField", "datetime"), ("TimeField", "text"),
   ("ForeignKey", "relation"), ("OneToOneField", "relation"),
   ("ManyToManyField", "relation"), ("JSONField", "json"),
   ("ArrayField", "array")]

/-- FieldTypeRegistry.DEFAULT_LOOKUPS_BY_TYPE: permitted lookups per type. -/
def DEFAULT_LOOKUPS_BY_TYPE : List (String × List String) :=
  [("text", ["exact", "iexact", "contains", "icontains", "startswith", "istartswith"]),
   ("integer", ["exact", "gt", "gte", "lt", "lte", "in", "range"]),
   ("decimal", ["exact", "gt", "gte", "lt", "lte", "range"]),
   ("boolean", ["exact"]),
   ("date", ["exact", "gt", "gte", "lt", "lte", "range"]),
   ("datetime", ["exact", "gt", "gte", "lt", "lte", "range", "date"]),
   ("enum", ["exact", "in"]),
   ("relation", ["exact", "in"]),
   ("json", ["has_key", "contains", "contained_by"]),
   ("array", ["contains", "contained_by", "overlap", "len"])]

/-- Association-list lookup used for the registry tables. -/
def assocFind (l : List (String × α)) (k : String) : Option α :=
  (l.find? (fun kv => kv.1 == k)).map (fun kv => kv.2)

/-- Per-field filter configuration attached to a declared field
(fields.py FilterableFieldMixin filter_config); absent keys are none. -/
structure FieldFilterConfig where
  searchable : Option Bool
  lookups : Option (List String)
  default : Option String
  range_filter : Option Bool

/-- Empty per-field configuration, the default when the field carries no
filter_config attribute. -/
def no_field_config : FieldFilterConfig := ⟨none, none, none, none⟩

/-- A Django field descriptor, restricted to the attributes the engine
inspects: name, auto_created/concrete flags, internal type, choice/enum
detection collapsed to a flag plus the resolved value-label tuples, the
per-field filter configuration, and the relation flag. -/
structure FieldDescriptor where
  name : String
  auto_created : Bool
  concrete : Bool
  internal_type : String
  has_choices : Bool
  enum_choices : Option (List (String × String))
  filter_config : Option FieldFilterConfig
  is_relation : Bool

/-- FieldTypeRegistry.get_field_type: enum/choice detection first, then
date before datetime (a DateTimeField is also a DateField in Django, so
the internal type string separates the two), then JSON, then the internal
type mapping with a text default. -/
def get_field_type (f : FieldDescriptor) : String :=
  if f.has_choices then "enum"
  else if f.internal_type = "DateField" then "date"
  else if f.internal_type = "DateTimeField" then "datetime"
  else if f.internal_type = "JSONField" then "json"
  else (assocFind DJANGO_TYPE_MAPPING f.internal_type).getD "text"

/-- FieldTypeRegistry.get_default_lookup. -/
def get_default_lookup (field_type : String) : String :=
  (assocFind DEFAULT_LOOKUPS field_type).getD "exact"

/-- FieldTypeRegistry.get_lookups_for_type. -/
def get_lookups_for_type (field_type : String) : List String :=
  (assocFind DEFAULT_LOOKUPS_BY_TYPE field_type).getD ["exact"]

/-- ModelFilter config argument: the filter_fields / search_fields
allow-lists (absent lists modelled as empty, matching set(config.get(x, []))). -/
structure Config where
  filter_fields : List String
  search_fields : List String

/-- A field registry entry (the field_info dict built by _register_field or
_register_annotated_field).  is_annotated is false for declared fields,
where the Python dict simply lacks the key. -/
structure FieldInfo where
  field_path : String
  field : Option FieldDescriptor
  type : String
  searchable : Bool
  filterable : Bool
  lookups : List String
  default_lookup : String
  range_filter : Bool
  enum_class : Option (List (String × String))
  is_annotated : Bool

/-- The field registry: logical field name to metadata, in insertion
order (Python dict preserves insertion order). -/
abbrev Registry := List (String × FieldInfo)

/-- Registry lookup by logical field name. -/
def findEntry (reg : Registry) (name : String) : Option FieldInfo :=
  (reg.find? (fun kv => kv.1 == name)).map (fun kv => kv.2)

/-- ModelFilter._register_field (filters.py lines 286-349): skip plain
auto-created reverse relations, apply the relation prefix with collision
renaming, skip names already registered, then derive the metadata from the
per-field configuration and the type tables, gated by the allow-lists. -/
def register_field (cfg : Config) (reg : Registry) (f : FieldDescriptor)
    (relName : Option String) : Registry :=
  if f.auto_created && !f.concrete then reg
  else
    let namePath : String × String :=
      match relName with
      | some p =>
        (if (findEntry reg f.name).isSome then p ++ "_" ++ f.name else f.name,
         p ++ "__" ++ f.name)
      | none => (f.name, f.name)
    let field_name := namePath.1
    let field_path := namePath.2
    if (findEntry reg field_name).isSome then reg
    else
      let field_type := get_field_type f
      let field_config := f.filter_config.getD no_field_config
      let searchable := field_config.searchable.getD false
      let filterable :=
        if !cfg.filter_fields.isEmpty && !cfg.filter_fields.contains field_name
        then false else true
      let searchable :=
        if !cfg.search_fields.isEmpty && !cfg.search_fields.contains field_name
        then false else searchable
      let lookups := field_config.lookups.getD (get_lookups_for_type field_type)
      let default_lookup := field_config.default.getD (get_default_lookup field_type)
      let range_filter := field_config.range_filter.getD
        (["date", "datetime", "integer", "decimal"].contains field_type)
      let enum_class := if field_type = "enum" then f.enum_choices else none
      reg ++ [(field_name,
        { field_path := field_path, field := some f, type := field_type,
          searchable := searchable, filterable := filterable,
          lookups := lookups, default_lookup := default_lookup,
          range_filter := range_filter, enum_class := enum_class,
          is_annotated := false })]

/-- ModelFilter._register_annotated_field (filters.py lines 228-265):
annotated queryset expressions register as filterable and searchable by
default, gated only by the allow-lists, with no range filter. -/
def register_annotated_field (cfg : Config) (reg : Registry)
    (field_name : String) (field_type : String) : Registry :=
  if (findEntry reg field_name).isSome then reg
  else
    let lookups := get_lookups_for_type field_type
    let default_lookup := get_default_lookup field_type
    let filterable :=
      if !cfg.filter_fields.isEmpty && !cfg.filter_fields.contains field_name
      then false else true
    let searchable :=
      if !cfg.search_fields.isEmpty && !cfg.search_fields.contains field_name
      then false else true
    reg ++ [(field_name,
      { field_path := field_name, field := none, type := field_type,
        searchable := searchable, filterable := filterable,
        lookups := lookups, default_lookup := default_lookup,
        range_filter := false, enum_class := none, is_annotated := true })]

/-- ModelFilter._analyze_model_fields (filters.py lines 267-284): register
the model fields, then walk them again registering related-model fields
one level deep under the relation name.  The related-model enumeration is
supplied as a function from relation name to field descriptors. -/
def analyze_model_fields (cfg : Config) (own : List FieldDescriptor)
    (relatedOf : String → List FieldDescriptor) : Registry :=
  let reg := own.foldl (fun reg f => register_field cfg reg f none) []
  own.foldl (fun reg f =>
    let reg := register_field cfg reg f none
    if f.is_relation then
      (relatedOf f.name).foldl
        (fun reg rf => register_field cfg reg rf (some f.name)) reg
    else reg) reg

/-! Value coercion (filters.py lines 431-468). -/

/-- ModelFilter._convert_to_boolean: booleans pass through, strings match
the truthy word list case-insensitively, anything else is bool(value). -/
def convert_to_boolean : Value → Bool
  | .vBool b => b
  | .vStr s => ["true", "t", "yes", "y", "1"].contains (strLower s)
  | v => pyTruthy v

/-- Truncation toward zero, matching Python int() applied to a float. -/
def ratTrunc (q : Rat) : Int :=
  if 0 ≤ q then ⌊q⌋ else ⌈q⌉

/-- ModelFilter._convert_to_integer: int(value) with ValueError and
TypeError coerced to 0. -/
def convert_to_integer : Value → Int
  | .vInt n => n
  | .vBool b => if b then 1 else 0
  | .vRat q => ratTrunc q
  | .vStr s => (pyParseInt s).getD 0
  | _ => 0

/-- ModelFilter._convert_to_decimal: float(value) with ValueError and
TypeError coerced to 0.0. -/
def convert_to_decimal : Value → Rat
  | .vRat q => q
  | .vInt n => (n : Rat)
  | .vBool b => if b then 1 else 0
  | .vStr s => (pyParseFloat s).getD 0
  | _ => 0

/-- ModelFilter._convert_value_by_type: boolean/integer/decimal fields go
through the matching converter, element-wise on lists; other types pass
through unchanged. -/
def convert_value_by_type (v : Value) (fi : FieldInfo) : Value :=
  let handler : Option (Value → Value) :=
    if fi.type = "boolean" then some (fun x => .vBool (convert_to_boolean x))
    else if fi.type = "integer" then some (fun x => .vInt (convert_to_integer x))
    else if fi.type = "decimal" then some (fun x => .vRat (convert_to_decimal x))
    else none
  match handler with
  | some conv =>
    match v with
    | .vList l => .vList (l.map conv)
    | x => conv x
  | none => v

/-! Django Q objects as a predicate tree, with the combine semantics of
django.db.models.Q: combining with an empty Q returns the other operand,
and an empty Q is falsy. -/

inductive Q where
  | empty : Q
  | cond (path lookup : String) (value : Value) : Q
  | qand (a b : Q) : Q
  | qor (a b : Q) : Q

/-- Python truthiness of a Q object: Q() has no children and is falsy. -/
def qTruthy : Q → Bool
  | .empty => false
  | _ => true

/-- Q.__and__: combining with the empty Q returns the other operand. -/
def qAnd : Q → Q → Q
  | .empty, b => b
  | a, .empty => a
  | a, b => .qand a b

/-- Q.__or__: combining with the empty Q returns the other operand. -/
def qOr : Q → Q → Q
  | .empty, b => b
  | a, .empty => a
  | a, b => .qor a b

/-- Truthiness of an optional Q (Python `if advanced_q:` where advanced_q
may be None). -/
def optQTruthy : Option Q → Bool
  | some q => qTruthy q
  | none => false

/-! Single-field predicates (filters.py lines 368-429). -/

/-- Lookup resolution inside _build_field_filter (lines 409-415): the
explicit lookup when supplied and truthy, else the default; a resolved
lookup outside the permitted set falls back to the default (after a
logged warning in the source). -/
def resolve_lookup (lookup : Option String) (fi : FieldInfo) : String :=
  let l := match lookup with
    | some l => if l = "" then fi.default_lookup else l
    | none => fi.default_lookup
  if fi.lookups.contains l then l else fi.default_lookup

/-- The Python test value == the empty string (only a string compares
equal to a string). -/
def isEmptyStr : Value → Bool
  | .vStr s => s == ""
  | _ => false

/-- ModelFilter._build_field_filter: build the Q fragment for one field.
Returns none for unregistered or non-filterable fields and for absent
values; an empty-string value becomes an isnull test; an in lookup splits
comma-separated scalars; the value is coerced by type before emission. -/
def build_field_filter (reg : Registry) (req : Request) (field_name : String)
    (value : Option Value) (lookup : Option String) : Option Q :=
  match findEntry reg field_name with
  | none => none
  | some field_info =>
    if !field_info.filterable then none
    else
      let value : Option Value :=
        match value with
        | some v => some v
        | none => get_field_values req field_name
      match value with
      | none => none
      | some v =>
        let lookup := resolve_lookup lookup field_info
        if isEmptyStr v then
          some (.cond field_info.field_path "isnull" (.vBool true))
        else
          let v :=
            if lookup = "in" then
              match v with
              | .vList l => .vList l
              | .vStr s =>
                if strContainsChar s ',' then .vList ((strSplitOn ',' s).map Value.vStr)
                else .vList [.vStr s]
              | other => .vList [other]
            else v
          let v := convert_value_by_type v field_info
          some (.cond field_info.field_path lookup v)

/-! Date and datetime parsing (filters.py lines 606-639), modelling
datetime.datetime.strptime for the fixed format lists: each format is a
three-component numeric date (year component up to four digits, month and
day up to two) with fixed separators, optionally followed by a time.
The datetime constructor validates month, day (against the month length),
hour, minute and second ranges. -/

/-- Role of one component in a date pattern. -/
inductive DatePart where
  | Y | M | D

/-- Maximum digit count strptime accepts for a component. -/
def partMaxLen : DatePart → Nat
  | .Y => 4
  | .M => 2
  | .D => 2

/-- Leap-year rule used for day-of-month validation. -/
def isLeap (y : Nat) : Bool :=
  (y % 4 = 0 && y % 100 != 0) || y % 400 = 0

/-- Days in a month for day validation. -/
def daysInMonth (y m : Nat) : Nat :=
  if m = 2 then (if isLeap y then 29 else 28)
  else if [4, 6, 9, 11].contains m then 30
  else 31

/-- Validated date construction (datetime.date raises on bad components). -/
def mkDate (y m d : Nat) : Option Value :=
  if 1 ≤ y && y ≤ 9999 && 1 ≤ m && m ≤ 12 && 1 ≤ d && d ≤ daysInMonth y m then
    some (.vDate y m d)
  else none

/-- Exactly three separator-delimited components. -/
def split3 (sep : Char) (s : String) : Option (String × String × String) :=
  match strSplitOn sep s with
  | [a, b, c] => some (a, b, c)
  | _ => none

/-- Digits of one date component under its length bound. -/
def readPart (p : DatePart) (s : String) : Option Nat :=
  if strLen s ≥ 1 && strLen s ≤ partMaxLen p then digitsVal s.toList
  else none

/-- Parse one three-component date pattern. -/
def parseDateWith (sep : Char) (p1 p2 p3 : DatePart) (s : String) :
    Option (Nat × Nat × Nat) := do
  let (a, b, c) ← split3 sep s
  let v1 ← readPart p1 a
  let v2 ← readPart p2 b
  let v3 ← readPart p3 c
  let y := match p1, p2, p3 with
    | .Y, _, _ => v1
    | _, .Y, _ => v2
    | _, _, _ => v3
  let m := match p1, p2, p3 with
    | .M, _, _ => v1
    | _, .M, _ => v2
    | _, _, _ => v3
  let d := match p1, p2, p3 with
    | .D, _, _ => v1
    | _, .D, _ => v2
    | _, _, _ => v3
  some (y, m, d)

/-- ModelFilter._parse_date: try the five date formats in order, returning
the first that parses and validates; empty input short-circuits to none. -/
def parse_date (value : String) : Option Value :=
  if value = "" then none
  else
    (parseDateWith '-' .Y .M .D value).bind (fun t => mkDate t.1 t.2.1 t.2.2) <|>
    (parseDateWith '-' .D .M .Y value).bind (fun t => mkDate t.1 t.2.1 t.2.2) <|>
    (parseDateWith '/' .M .D .Y value).bind (fun t => mkDate t.1 t.2.1 t.2.2) <|>
    (parseDateWith '/' .D .M .Y value).bind (fun t => mkDate t.1 t.2.1 t.2.2) <|>
    (parseDateWith '/' .Y .M .D value).bind (fun t => mkDate t.1 t.2.1 t.2.2)

/-- Exactly two separator-delimited components. -/
def split2 (sep : Char) (s : String) : Option (String × String) :=
  match strSplitOn sep s with
  | [a, b] => some (a, b)
  | _ => none

/-- Time component of up to two digits below a bound. -/
def readTimePart (bound : Nat) (s : String) : Option Nat := do
  let v ← (if strLen s ≥ 1 && strLen s ≤ 2 then digitsVal s.toList else none)
  if v ≤ bound then some v else none

/-- Parse H:M:S. -/
def parseTimeHMS (s : String) : Option (Nat × Nat × Nat) :=
  match strSplitOn ':' s with
  | [a, b, c] => do
    let hh ← readTimePart 23 a
    let mm ← readTimePart 59 b
    let ss ← readTimePart 59 c
    some (hh, mm, ss)
  | _ => none

/-- Parse H:M. -/
def parseTimeHM (s : String) : Option (Nat × Nat) :=
  match strSplitOn ':' s with
  | [a, b] => do
    let hh ← readTimePart 23 a
    let mm ← readTimePart 59 b
    some (hh, mm)
  | _ => none

/-- Combine a parsed date pattern with a parsed time into a datetime. -/
def mkDateTime (t : Nat × Nat × Nat) (tm : Nat × Nat × Nat) : Option Value :=
  (mkDate t.1 t.2.1 t.2.2).map (fun v =>
    match v with
    | .vDate y m d => .vDateTime y m d tm.1 tm.2.1 tm.2.2
    | other => other)

/-- ModelFilter._parse_datetime: try the six datetime formats in order. -/
def parse_datetime (value : String) : Option Value :=
  if value = "" then none
  else
    ((split2 ' ' value).bind (fun dt =>
       (parseDateWith '-' .Y .M .D dt.1).bind (fun t =>
         (parseTimeHMS dt.2).bind (fun tm => mkDateTime t tm)))) <|>
    ((split2 'T' value).bind (fun dt =>
       (parseDateWith '-' .Y .M .D dt.1).bind (fun t =>
         (parseTimeHMS dt.2).bind (fun tm => mkDateTime t tm)))) <|>
    ((split2 'T' value).bind (fun dt =>
       if strEndsWith dt.2 "Z" then
         (parseDateWith '-' .Y .M .D dt.1).bind (fun t =>
           (parseTimeHMS (strDropRightN dt.2 1)).bind (fun tm => mkDateTime t tm))
       else none)) <|>
    ((split2 ' ' value).bind (fun dt =>
       (parseDateWith '-' .Y .M .D dt.1).bind (fun t =>
         (parseTimeHM dt.2).bind (fun tm => mkDateTime t (tm.1, tm.2, 0))))) <|>
    ((split2 ' ' value).bind (fun dt =>
       (parseDateWith '-' .D .M .Y dt.1).bind (fun t =>
         (parseTimeHMS dt.2).bind (fun tm => mkDateTime t tm)))) <|>
    ((split2 ' ' value).bind (fun dt =>
       (parseDateWith '/' .M .D .Y dt.1).bind (fun t =>
         (parseTimeHMS dt.2).bind (fun tm => mkDateTime t tm))))

/-! Range, search and ordering (filters.py lines 470-604). -/

/-- The min or max side of a range filter: present key with a truthy value
whose parse succeeds. -/
def range_side (req : Request) (param : String) (parse : String → Option Value)
    (lookupName : String) (field_path : String) : Option Q :=
  if req_has_key req param && ((req_item req param).getD "") != "" then
    match parse ((req_item req param).getD "") with
    | some v => some (.cond field_path lookupName v)
    | none => none
  else none

/-- ModelFilter._build_date_range_filter: gte from the _min parameter and
lte from the _max parameter, combined with AND when both parse. -/
def build_date_range_filter (reg : Registry) (req : Request)
    (field_name : String) : Option Q :=
  match findEntry reg field_name with
  | none => none
  | some field_info =>
    if !field_info.filterable then none
    else
      let q1 := range_side req (field_info.field_path ++ "_min") parse_date
        "gte" field_info.field_path
      let q2 := range_side req (field_info.field_path ++ "_max") parse_date
        "lte" field_info.field_path
      match q1, q2 with
      | some a, some b => some (.qand a b)
      | some a, none => some a
      | none, some b => some b
      | none, none => none

/-- ModelFilter._build_datetime_range_filter: as the date version but with
the datetime parser. -/
def build_datetime_range_filter (reg : Registry) (req : Request)
    (field_name : String) : Option Q :=
  match findEntry reg field_name with
  | none => none
  | some field_info =>
    if !field_info.filterable then none
    else
      let q1 := range_side req (field_info.field_path ++ "_min") parse_datetime
        "gte" field_info.field_path
      let q2 := range_side req (field_info.field_path ++ "_max") parse_datetime
        "lte" field_info.field_path
      match q1, q2 with
      | some a, some b => some (.qand a b)
      | some a, none => some a
      | none, some b => some b
      | none, none => none

/-- ModelFilter._build_search_filter: a non-blank string search term ORs a
case-insensitive containment test over every searchable text field and an
in test over the label-matching values of every searchable enum field. -/
def build_search_filter (reg : Registry) (req : Request) : Option Q :=
  match get_field_values req SEARCH_PARAM with
  | some (.vStr s) =>
    if s = "" then none
    else
      let search_term := strTrim s
      if search_term = "" then none
      else
        some (reg.foldl (fun q_obj entry =>
          let field_info := entry.2
          if !field_info.searchable then q_obj
          else if field_info.type = "text" then
            qOr q_obj (.cond field_info.field_path "icontains" (.vStr search_term))
          else if field_info.type = "enum" then
            match field_info.enum_class with
            | some tuples =>
              let matching := (tuples.filter
                (fun vl => strContainsCI vl.2 search_term)).map
                (fun vl => Value.vStr vl.1)
              if !matching.isEmpty then
                qOr q_obj (.cond field_info.field_path "in" (.vList matching))
              else q_obj
            | none => q_obj
          else q_obj) Q.empty)
  | some _ => none
  | none => none

/-- Resolution of one ordering token: a leading dash is preserved on the
resolved field path, unregistered names resolve to none (the loop body of
_apply_ordering, lines 590-602). -/
def resolve_ordering_token (reg : Registry) (f : String) : Option String :=
  let pn : String × String :=
    if strStartsWith f "-" then ("-", strDropN f 1) else ("", f)
  (findEntry reg pn.2).map (fun field_info => pn.1 ++ field_info.field_path)

/-- ModelFilter._apply_ordering: the ordering parameter (default "-id"
when absent or falsy) is split on commas (a list value is used as is),
and each token is resolved left-to-right, dropping unregistered names. -/
def apply_ordering (reg : Registry) (req : Request) : List String :=
  let ordering_param : Value :=
    match get_field_values req ORDERING_PARAM with
    | some v => if pyTruthy v then v else .vStr DEFAULT_ORDERING
    | none => .vStr DEFAULT_ORDERING
  if !pyTruthy ordering_param then []
  else
    let ordering_fields : List String :=
      match ordering_param with
      | .vList l => l.filterMap (fun v =>
          match v with
          | .vStr s => some s
          | _ => none)
      | .vStr s => ((strSplitOn ',' s).map strTrim).filter (fun f => f != "")
      | _ => []
    ordering_fields.foldl (fun valid_ordering f =>
      valid_ordering ++ (resolve_ordering_token reg f).toList) []

/-! The advanced-filter expression tree (filters.py lines 641-740).
A decoded JSON object dispatches on its keys: operator plus conditions
makes a group, field plus value makes a leaf (a JSON null value is the
Python None and is modelled as none), anything else is invalid and
resolves to nothing. -/

inductive FilterNode where
  | group (operator : String) (conditions : List FilterNode)
  | leaf (field : String) (lookup : Option String) (value : Option Value)
  | invalid

mutual

/-- ModelFilter._build_filter_object: group nodes reduce their conditions
left-to-right starting from the first resolved predicate (an empty list or
a first condition resolving to nothing makes the group nothing); leaves
check the registry then defer to _build_field_filter; invalid shapes
resolve to nothing. -/
def build_filter_object (reg : Registry) (req : Request) :
    FilterNode → Option Q
  | .group operator conditions =>
    match conditions with
    | [] => none
    | c :: rest =>
      match build_filter_object reg req c with
      | none => none
      | some q_object =>
        some (combine_conditions reg req (strUpper operator) q_object rest)
  | .leaf field lookup value =>
    if (findEntry reg field).isSome then
      build_field_filter reg req field value lookup
    else none
  | .invalid => none

/-- The loop over the remaining conditions of a group: conditions that
resolve to nothing are skipped; AND combines with qand, OR with qor, and
any other operator string falls back to AND (the source logs a warning). -/
def combine_conditions (reg : Registry) (req : Request) (op : String)
    (q_object : Q) : List FilterNode → Q
  | [] => q_object
  | c :: rest =>
    let q_object :=
      match build_filter_object reg req c with
      | none => q_object
      | some next_q =>
        if op = "AND" then qAnd q_object next_q
        else if op = "OR" then qOr q_object next_q
        else qAnd q_object next_q
    combine_conditions reg req op q_object rest

end

/-! Rows and predicate evaluation: the queryable-collection collaborator
is modelled as a list of rows, each row an association of field paths to
values (a path absent from a row is NULL). -/

abbrev Row := List (String × Value)

/-- The value of a field path in a row. -/
def rowGet (row : Row) (path : String) : Option Value :=
  (row.find? (fun kv => kv.1 == path)).map (fun kv => kv.2)

mutual

/-- Structural equality on values, used for exact and in lookups; numeric
values compare across vInt and vRat. -/
def valEq : Value → Value → Bool
  | .vStr a, .vStr b => a == b
  | .vInt a, .vInt b => a == b
  | .vRat a, .vRat b => a == b
  | .vInt a, .vRat b => (a : Rat) == b
  | .vRat a, .vInt b => a == (b : Rat)
  | .vBool a, .vBool b => a == b
  | .vDate a b c, .vDate d e f => a == d && b == e && c == f
  | .vDateTime a b c d e f, .vDateTime g h i j k l =>
    a == g && b == h && c == i && d == j && e == k && f == l
  | .vList a, .vList b => valListEq a b
  | _, _ => false

/-- Element-wise equality on value lists. -/
def valListEq : List Value → List Value → Bool
  | [], [] => true
  | a :: as, b :: bs => valEq a b && valListEq as bs
  | _, _ => false

end

/-- Ordering on values for comparison lookups and sorting; values of
incomparable kinds default to true on the less-or-equal side. -/
def valLe : Value → Value → Bool
  | .vInt a, .vInt b => a ≤ b
  | .vRat a, .vRat b => a ≤ b
  | .vInt a, .vRat b => (a : Rat) ≤ b
  | .vRat a, .vInt b => a ≤ (b : Rat)
  | .vStr a, .vStr b => a ≤ b
  | .vBool a, .vBool b => !a || b
  | .vDate a b c, .vDate d e f =>
    a * 10000 + b * 100 + c ≤ d * 10000 + e * 100 + f
  | .vDateTime a b c d e f, .vDateTime g h i j k l =>
    ((a * 10000 + b * 100 + c) * 1000000 + d * 10000 + e * 100 + f) ≤
    ((g * 10000 + h * 100 + i) * 1000000 + j * 10000 + k * 100 + l)
  | _, _ => true

/-- Strict version of the value ordering. -/
def valLt (a b : Value) : Bool := valLe a b && !valEq a b

/-- Evaluation of one lookup condition against a row, modelling the
lookups the engine emits: isnull, exact, icontains, gt, gte, lt, lte, in. -/
def evalCond (row : Row) (path lookupName : String) (v : Value) : Bool :=
  match lookupName with
  | "isnull" =>
    (match v with
     | .vBool b => (rowGet row path).isNone == b
     | _ => false)
  | "exact" =>
    (match rowGet row path with
     | some rv => valEq rv v
     | none => false)
  | "icontains" =>
    (match rowGet row path, v with
     | some (.vStr s), .vStr t => strContainsCI s t
     | _, _ => false)
  | "gt" =>
    (match rowGet row path with
     | some rv => valLt v rv
     | none => false)
  | "gte" =>
    (match rowGet row path with
     | some rv => valLe v rv
     | none => false)
  | "lt" =>
    (match rowGet row path with
     | some rv => valLt rv v
     | none => false)
  | "lte" =>
    (match rowGet row path with
     | some rv => valLe rv v
     | none => false)
  | "in" =>
    (match rowGet row path, v with
     | some rv, .vList l => l.any (fun x => valEq rv x)
     | _, _ => false)
  | _ => false

/-- Evaluation of a Q tree against a row; the empty Q matches everything. -/
def evalQ : Q → Row → Bool
  | .empty, _ => true
  | .cond path lookupName v, row => evalCond row path lookupName v
  | .qand a b, row => evalQ a row && evalQ b row
  | .qor a b, row => evalQ a row || evalQ b row

/-- Less-or-equal on rows under an ordering key list: keys are compared
left to right, a leading dash reverses the comparison. -/
def rowKeyLe (keys : List String) (r1 r2 : Row) : Bool :=
  match keys with
  | [] => true
  | k :: rest =>
    let dp : Bool × String :=
      if strStartsWith k "-" then (true, strDropN k 1) else (false, k)
    let v1 := (rowGet r1 dp.2).getD (.vStr "")
    let v2 := (rowGet r2 dp.2).getD (.vStr "")
    if valEq v1 v2 then rowKeyLe rest r1 r2
    else if dp.1 then valLe v2 v1 else valLe v1 v2

/-- Stable insertion into a sorted row list. -/
def insertRow (le : Row → Row → Bool) (r : Row) : List Row → List Row
  | [] => [r]
  | x :: xs => if le r x then r :: x :: xs else x :: insertRow le r xs

/-- Stable sort of rows, modelling order_by on the collaborator. -/
def sortRows (le : Row → Row → Bool) (rows : List Row) : List Row :=
  rows.foldr (insertRow le) []

/-! The ModelFilter orchestrator (filters.py lines 139-856). -/

/-- The per-invocation filter state: the field registry (built in the
constructor from the model and configured queryset), the request data, the
base queryset as a row list, the cached filtered result, and the transport
decoder for the advanced-filter parameter (modelling parse.unquote
followed by json.loads, which yields a node on success and none on
json.JSONDecodeError or ValueError). -/
structure ModelFilter where
  field_registry : Registry
  request_data : Request
  base_queryset : List Row
  filtered_queryset : Option (List Row)
  decode : String → Option FilterNode

/-- ModelFilter._parse_advanced_filter: a missing or falsy filter
parameter yields none; a string parameter is decoded and interpreted
(decode failure is caught, logged and yields none); a non-string
parameter is the QueryDict multi-value list, whose shape has neither an
operator nor a field key, so _build_filter_object resolves it to none. -/
def parse_advanced_filter (mf : ModelFilter) : Option Q :=
  match get_field_values mf.request_data ADVANCED_FILTER_PARAM with
  | none => none
  | some filter_param =>
    if !pyTruthy filter_param then none
    else
      match filter_param with
      | .vStr s =>
        match mf.decode s with
        | some node => build_filter_object mf.field_registry mf.request_data node
        | none => none
      | _ => none

/-- The range-filter loop of apply() (lines 809-823): every registry
entry flagged range_filter contributes its date or datetime range
predicate when truthy; entries of any other type contribute nothing. -/
def apply_range_filters (reg : Registry) (req : Request) (query : Q) : Q :=
  reg.foldl (fun query entry =>
    let field_name := entry.1
    let field_info := entry.2
    if !field_info.range_filter then query
    else if field_info.type = "date" then
      match build_date_range_filter reg req field_name with
      | some dq => if qTruthy dq then qAnd query dq else query
      | none => query
    else if field_info.type = "datetime" then
      match build_datetime_range_filter reg req field_name with
      | some dq => if qTruthy dq then qAnd query dq else query
      | none => query
    else query) query

/-- The flat-parameter loop of apply() (lines 825-838): every request
parameter that is not reserved, does not end in a range suffix, names a
registered field and has not been processed yet contributes its field
predicate when truthy. -/
def apply_flat_params (reg : Registry) (req : Request) (query : Q) : Q :=
  (req.foldl (fun acc kv =>
    let query := acc.1
    let processed_fields := acc.2
    let param := kv.1
    if param == SEARCH_PARAM || param == ORDERING_PARAM ||
       param == ADVANCED_FILTER_PARAM then acc
    else if DATE_RANGE_SUFFIXES.any (fun suf => strEndsWith param suf) then acc
    else if (findEntry reg param).isSome && !processed_fields.contains param then
      let query :=
        match build_field_filter reg req param none none with
        | some field_q => if qTruthy field_q then qAnd query field_q else query
        | none => query
      (query, processed_fields ++ [param])
    else acc) (query, ([] : List String))).1

/-- The flat path of apply(): the search predicate, then the range
predicates, then the per-field predicates, all ANDed onto the query. -/
def flat_query (reg : Registry) (req : Request) : Q :=
  let query := Q.empty
  let query :=
    match build_search_filter reg req with
    | some search_q => if qTruthy search_q then qAnd query search_q else query
    | none => query
  let query := apply_range_filters reg req query
  apply_flat_params reg req query

/-- The ordering step of apply() (lines 843-846): order_by is issued only
when _apply_ordering returns a non-empty key list. -/
def order_step (reg : Registry) (req : Request) (rows : List Row) : List Row :=
  let ordering := apply_ordering reg req
  if ordering.isEmpty then rows else sortRows (rowKeyLe ordering) rows

/-- ModelFilter.apply (lines 791-848): return the cached result when one
exists; otherwise a truthy advanced-filter predicate is ANDed onto the
empty query and used exclusively, else the flat path runs; the composed
query filters the base queryset and the ordering step runs; the result is
stored. -/
def ModelFilter.apply (mf : ModelFilter) : ModelFilter :=
  match mf.filtered_queryset with
  | some _ => mf
  | none =>
    let advanced_q := parse_advanced_filter mf
    let query :=
      if optQTruthy advanced_q then qAnd Q.empty (advanced_q.getD Q.empty)
      else flat_query mf.field_registry mf.request_data
    let filtered := mf.base_queryset.filter (fun r => evalQ query r)
    let filtered := order_step mf.field_registry mf.request_data filtered
    { mf with filtered_queryset := some filtered }

/-- ModelFilter.qs (lines 850-856): apply when nothing is cached, then
return the filtered queryset. -/
def ModelFilter.qs (mf : ModelFilter) : List Row :=
  match mf.filtered_queryset with
  | some rows => rows
  | none => (mf.apply.filtered_queryset).getD []

/-- The metadata record emitted by get_filterable_fields for one field.
The Python dict carries range_filter only when true and choices only when
non-empty; these are modelled as a Bool and an Option. -/
structure FieldMeta where
  name : String
  type : String
  filterable : Bool
  searchable : Bool
  orderable : Bool
  lookups : List String
  default_lookup : String
  range_filter : Bool
  choices : Option (List (String × String))

/-- The loop body of get_filterable_fields for one registry entry:
internal names (leading underscore) are skipped; otherwise the metadata
dict is built with a filterable key written as the constant True, the
searchable flag from the registry, a constant orderable True, the
permitted lookups, the default lookup, the range-filter flag, and the
enum choice list when present and non-empty. -/
def gff_entry (entry : String × FieldInfo) : Option (String × FieldMeta) :=
  let field_name := entry.1
  let field_info := entry.2
  if strStartsWith field_name "_" then none
  else
    let choices : Option (List (String × String)) :=
      if field_info.type = "enum" then
        match field_info.enum_class with
        | some tuples => if tuples.isEmpty then none else some tuples
        | none => none
      else none
    some (field_name,
      { name := field_name, type := field_info.type, filterable := true,
        searchable := field_info.searchable, orderable := true,
        lookups := field_info.lookups,
        default_lookup := field_info.default_lookup,
        range_filter := field_info.range_filter, choices := choices })

/-- ModelFilter.get_filterable_fields (lines 742-789): fold the loop body
over the registry in insertion order. -/
def get_filterable_fields (reg : Registry) : List (String × FieldMeta) :=
  reg.foldl (fun fields entry => fields ++ (gff_entry entry).toList) []

/-! Concrete fixtures: the Product and Category models of the repository
test suite (tests/models.py), their registry, and the four test rows. -/

/-- Empty allow-list configuration (no filter_fields, no search_fields). -/
def cfgNone : Config := ⟨[], []⟩

def fdProductId : FieldDescriptor :=
  ⟨"id", true, true, "AutoField", false, none, none, false⟩

def fdProductName : FieldDescriptor :=
  ⟨"name", false, true, "CharField", false, none,
   some ⟨some true, none, none, none⟩, false⟩

def fdProductDescription : FieldDescriptor :=
  ⟨"description", false, true, "CharField", false, none,
   some ⟨some true, none, none, none⟩, false⟩

def fdProductPrice : FieldDescriptor :=
  ⟨"price", false, true, "DecimalField", false, none,
   some ⟨none, some ["exact", "gt", "lt", "range"], none, none⟩, false⟩

def fdProductCategory : FieldDescriptor :=
  ⟨"category", false, true, "ForeignKey", false, none, none, true⟩

def fdProductCreatedAt : FieldDescriptor :=
  ⟨"created_at", false, true, "DateTimeField", false, none,
   some ⟨none, none, none, some true⟩, false⟩

def fdProductIsActive : FieldDescriptor :=
  ⟨"is_active", false, true, "BooleanField", false, none,
   some ⟨none, some ["exact"], none, none⟩, false⟩

def fdCategoryId : FieldDescriptor :=
  ⟨"id", true, true, "AutoField", false, none, none, false⟩

def fdCategoryName : FieldDescriptor :=
  ⟨"name", false, true, "CharField", false, none,
   some ⟨some true, some ["exact", "icontains"], none, none⟩, false⟩

def productFields : List FieldDescriptor :=
  [fdProductId, fdProductName, fdProductDescription, fdProductPrice,
   fdProductCategory, fdProductCreatedAt, fdProductIsActive]

/-- Related-model enumeration: the category relation exposes the Category
fields one level deep. -/
def productRelated (n : String) : List FieldDescriptor :=
  if n = "category" then [fdCategoryId, fdCategoryName] else []

/-- The registry the ModelFilter constructor builds for Product. -/
def productRegistry : Registry :=
  analyze_model_fields cfgNone productFields productRelated

def rowLaptop : Row :=
  [("id", .vInt 1), ("name", .vStr "Laptop"),
   ("description", .vStr "Powerful laptop"),
   ("price", .vRat (129999 / 100)), ("category", .vInt 1),
   ("is_active", .vBool true)]

def rowPhone : Row :=
  [("id", .vInt 2), ("name", .vStr "Phone"),
   ("description", .vStr "Smartphone"),
   ("price", .vRat (79999 / 100)), ("category", .vInt 1),
   ("is_active", .vBool true)]

def rowBook : Row :=
  [("id", .vInt 3), ("name", .vStr "Python Book"),
   ("description", .vStr "Learn Python programming"),
   ("price", .vRat (4999 / 100)), ("category", .vInt 2),
   ("is_active", .vBool true)]

def rowOldPhone : Row :=
  [("id", .vInt 4), ("name", .vStr "Old Phone"),
   ("description", .vStr "Discontinued model"),
   ("price", .vRat (29999 / 100)), ("category", .vInt 1),
   ("is_active", .vBool false)]

def productRows : List Row := [rowLaptop, rowPhone, rowBook, rowOldPhone]

/-- Witness for C8 at a concrete state with a cached result. -/
def c8mf : ModelFilter := ⟨[], [], [], some [], fun _ => none⟩

/-- A sample integer-typed registry entry for the C6 witness. -/
def fiIntSample : FieldInfo :=
  ⟨"n", none, "integer", false, true, ["exact"], "exact", true, none, false⟩

/-- C1 fixture: the filter parameter is present and non-empty but its
decoded tree names only the unregistered field zzz, so it resolves to
nothing; a flat parameter name=Laptop is co-present. -/
def c1mf : ModelFilter :=
  ⟨productRegistry, [("filter", ["notjson"]), ("name", ["Laptop"])],
   productRows, none, fun _ => some (.leaf "zzz" none (some (.vInt 1)))⟩

/-- C1 witness fixture: the advanced filter resolves to a truthy
predicate on is_active while a flat parameter naming name is co-present. -/
def c1wmf : ModelFilter :=
  ⟨productRegistry, [("filter", ["enc"]), ("name", ["NoSuch"])],
   productRows, none,
   fun _ => some (.leaf "is_active" (some "exact") (some (.vBool false)))⟩

/-- C2 fixture: the failing input of the repository test
test_range_filter — price_min=300 and price_max=1000 over the four test
products. -/
def c2mf : ModelFilter :=
  ⟨productRegistry, [("price_min", ["300"]), ("price_max", ["1000"])],
   productRows, none, fun _ => none⟩

/-- The registry entry built for the Product name field, used by concrete
witnesses. -/
def productNameInfo : FieldInfo :=
  ⟨"name", some fdProductName, "text", true, true,
   ["exact", "iexact", "contains", "icontains", "startswith", "istartswith"],
   "icontains", false, none, false⟩

/-- A leaf condition on the registered name field, used by the C5
witness. -/
def wLeaf : FilterNode := .leaf "name" none (some (.vStr "x"))

/-- C9 counterexample fixture: a filter_fields allow-list naming only the
name field, so the registry marks price as not filterable. -/
def c9registry : Registry :=
  analyze_model_fields ⟨["name"], []⟩ productFields productRelated

/-- The registry entry built for price under the C9 allow-list. -/
def c9PriceInfo : FieldInfo :=
  ⟨"price", some fdProductPrice, "decimal", false, false,
   ["exact", "gt", "lt", "range"], "exact", true, none, false⟩

/-- A plain declared field with no filter configuration, for the C10
witness: even listed in search_fields it stays not searchable, while an
annotated field under the same configuration defaults to searchable but
is disabled by not being listed. -/
def fdPlain : FieldDescriptor :=
  ⟨"plain", false, true, "CharField", false, none, none, false⟩


/-! Helper lemmas shared by the claim theorems. -/

/-- A left fold that appends the image of each element when a partial
function succeeds equals the filterMap of that function. -/
theorem foldl_opt_append (f : α → Option β) :
    ∀ (l : List α) (acc : List β),
      l.foldl (fun acc x => acc ++ (f x).toList) acc =
        acc ++ l.filterMap f := by
  intro l
  induction l with
  | nil => intro acc; simp
  | cons x xs ih =>
    intro acc
    cases h : f x with
    | none => simp [List.foldl_cons, h, ih, List.filterMap_cons]
    | some y => simp [List.foldl_cons, h, ih, List.filterMap_cons]

/-- Combining the empty Q on the left returns the other operand. -/
theorem qAnd_empty_left (b : Q) : qAnd Q.empty b = b := by
  cases b <;> rfl

/-- Appending a fresh entry to a registry makes it findable. -/
theorem findEntry_append_single (reg : Registry) (k : String) (fi : FieldInfo)
    (h : findEntry reg k = none) : findEntry (reg ++ [(k, fi)]) k = some fi := by
  induction reg with
  | nil => simp [findEntry]
  | cons hd tl ih =>
    by_cases hb : (hd.1 == k) = true
    · exfalso
      simp [findEntry, List.find?, hb] at h
    · have htl : findEntry tl k = none := by
        simpa [findEntry, List.find?, hb] using h
      simpa [findEntry, List.find?, hb] using ih htl

/-- The allow-list gate of _register_field as a boolean identity. -/
theorem allow_gate (a b s : Bool) :
    (if !a && !b then false else s) = (s && (a || b)) := by
  cases a <;> cases b <;> cases s <;> rfl

/-! Claim theorems. -/

/-- C8: apply() is idempotent.  The first call computes and stores the
filtered result; a second apply on the result changes nothing, and a call
on a state that already holds a computed result returns it unchanged
without recomputation. -/
theorem apply_is_idempotent (mf : ModelFilter) :
    mf.apply.apply = mf.apply ∧
    (mf.filtered_queryset.isSome = true → mf.apply = mf) := by
  cases h : mf.filtered_queryset with
  | some rows =>
    have h1 : mf.apply = mf := by simp [ModelFilter.apply, h]
    exact ⟨by rw [h1, h1], fun _ => h1⟩
  | none =>
    refine ⟨?_, ?_⟩
    · show mf.apply.apply = mf.apply
      simp [ModelFilter.apply, h]
    · intro hh
      simp at hh

theorem apply_is_idempotent_witness :
    c8mf.apply.apply = c8mf.apply ∧ c8mf.apply = c8mf :=
  ⟨(apply_is_idempotent c8mf).1, (apply_is_idempotent c8mf).2 rfl⟩

/-- C6: integer and decimal coercion are total and lenient: a parsable
string coerces to its parse, an unparsable one to zero, and list inputs
are coerced element-wise by _convert_value_by_type. -/
theorem numeric_coercion_total (s : String) (l : List Value) (fi : FieldInfo) :
    (∀ n, pyParseInt s = some n → convert_to_integer (.vStr s) = n) ∧
    (pyParseInt s = none → convert_to_integer (.vStr s) = 0) ∧
    (∀ q, pyParseFloat s = some q → convert_to_decimal (.vStr s) = q) ∧
    (pyParseFloat s = none → convert_to_decimal (.vStr s) = 0) ∧
    (fi.type = "integer" →
      convert_value_by_type (.vList l) fi =
        .vList (l.map (fun v => .vInt (convert_to_integer v)))) ∧
    (fi.type = "decimal" →
      convert_value_by_type (.vList l) fi =
        .vList (l.map (fun v => .vRat (convert_to_decimal v)))) := by
  refine ⟨?_, ?_, ?_, ?_, ?_, ?_⟩
  · intro n h; simp [convert_to_integer, h]
  · intro h; simp [convert_to_integer, h]
  · intro q h; simp [convert_to_decimal, h]
  · intro h; simp [convert_to_decimal, h]
  · intro h; simp [convert_value_by_type, h]
  · intro h; simp [convert_value_by_type, h]

theorem numeric_coercion_total_witness :
    convert_to_integer (.vStr "42") = 42 ∧
    convert_to_integer (.vStr "abc") = 0 ∧
    convert_to_decimal (.vStr "12.5") =
      (125 : Rat) / (10 : Rat) ^ (1 : Nat) * (10 : Rat) ^ (0 : Int) ∧
    convert_to_decimal (.vStr "x") = 0 ∧
    convert_value_by_type (.vList [.vStr "7", .vStr "x"]) fiIntSample =
      .vList ([Value.vStr "7", .vStr "x"].map (fun v => .vInt (convert_to_integer v))) :=
  ⟨(numeric_coercion_total "42" [] fiIntSample).1 42 rfl,
   (numeric_coercion_total "abc" [] fiIntSample).2.1 rfl,
   (numeric_coercion_total "12.5" [] fiIntSample).2.2.1
     ((125 : Rat) / (10 : Rat) ^ (1 : Nat) * (10 : Rat) ^ (0 : Int))
     (by
       have h : pyParseFloatRepr "12.5" = some (125, 1, 0) := by decide
       simp [pyParseFloat, h]),
   (numeric_coercion_total "x" [] fiIntSample).2.2.2.1 rfl,
   (numeric_coercion_total "" [.vStr "7", .vStr "x"] fiIntSample).2.2.2.2.1 rfl⟩

/-- C1 (amended): when the advanced-filter parameter resolves to a truthy
predicate, apply() uses it exclusively — the result depends only on that
predicate, the base queryset and the ordering, so co-present flat and
search parameters contribute nothing; but when the advanced filter
resolves to nothing (malformed payload, or only unknown fields), apply()
falls back to the flat-parameter path, where co-present flat and search
parameters do contribute. -/
theorem advanced_filter_supersedes_amended (mf : ModelFilter)
    (h : mf.filtered_queryset = none) :
    (∀ q, parse_advanced_filter mf = some q → qTruthy q = true →
      mf.apply = { mf with filtered_queryset := some (order_step
        mf.field_registry mf.request_data
        (mf.base_queryset.filter (fun r => evalQ q r))) }) ∧
    (optQTruthy (parse_advanced_filter mf) = false →
      mf.apply = { mf with filtered_queryset := some (order_step
        mf.field_registry mf.request_data
        (mf.base_queryset.filter (fun r => evalQ
          (flat_query mf.field_registry mf.request_data) r))) }) := by
  constructor
  · intro q hq ht
    simp [ModelFilter.apply, h, hq, optQTruthy, ht, qAnd_empty_left]
  · intro hf
    simp [ModelFilter.apply, h, hf]

/-- C1 counterexample: under the claim the advanced filter would be used
exclusively even though it resolves to nothing, leaving all four rows;
the code instead falls back to the flat path and the co-present flat
parameter keeps only the Laptop row. -/
theorem advanced_filter_supersedes_counterexample :
    (get_field_values c1mf.request_data ADVANCED_FILTER_PARAM).isSome = true ∧
    parse_advanced_filter c1mf = none ∧
    ((c1mf.apply.filtered_queryset).getD []).length = 1 ∧
    c1mf.base_queryset.length = 4 := ⟨rfl, rfl, rfl, rfl⟩

theorem advanced_filter_supersedes_witness :
    c1wmf.apply = { c1wmf with filtered_queryset := some (order_step
      c1wmf.field_registry c1wmf.request_data
      (c1wmf.base_queryset.filter (fun r => evalQ
        (.cond "is_active" "exact" (.vBool false)) r))) } :=
  (advanced_filter_supersedes_amended c1wmf rfl).1 _ rfl rfl

/-- C2 (code bug): price is registered as a decimal field with
range_filter true and both range parameters are present, and the
repository test expects exactly the 799.99 item, but apply() builds range
predicates only for date and datetime typed fields and skips parameters
ending in the range suffixes in the flat loop, so the composed query
stays empty and all four rows survive. -/
theorem numeric_range_filter_ignored :
    ((findEntry productRegistry "price").map (fun fi => fi.type)) = some "decimal" ∧
    ((findEntry productRegistry "price").map (fun fi => fi.range_filter)) = some true ∧
    req_has_key c2mf.request_data "price_min" = true ∧
    req_has_key c2mf.request_data "price_max" = true ∧
    ((c2mf.apply.filtered_queryset).getD []).length = 4 ∧
    c2mf.base_queryset.length = 4 := ⟨rfl, rfl, rfl, rfl, rfl, rfl⟩

/-- The token loop of _apply_ordering is the filterMap of token
resolution. -/
theorem apply_ordering_tokens (reg : Registry) (tokens : List String) :
    tokens.foldl (fun valid_ordering f =>
      valid_ordering ++ (resolve_ordering_token reg f).toList) [] =
    tokens.filterMap (resolve_ordering_token reg) := by
  simpa using foldl_opt_append (resolve_ordering_token reg) tokens []

/-- C3 (amended): _apply_ordering resolves the comma-split tokens left to
right, preserving a leading dash and dropping unregistered names; an
absent parameter yields the default "-id" list (resolved through the
registry); but a supplied value whose tokens are all unregistered yields
the empty list — no ordering — rather than falling back to the
default. -/
theorem apply_ordering_amended (reg : Registry) (req : Request) :
    (∀ fi, get_field_values req ORDERING_PARAM = none →
      findEntry reg "id" = some fi → fi.field_path = "id" →
      apply_ordering reg req = ["-id"]) ∧
    (∀ s, get_field_values req ORDERING_PARAM = some (.vStr s) → s ≠ "" →
      apply_ordering reg req =
        (((strSplitOn ',' s).map strTrim).filter (fun f => f != "")).filterMap
          (resolve_ordering_token reg)) ∧
    (∀ f fi, strStartsWith f "-" = true →
      findEntry reg (strDropN f 1) = some fi →
      resolve_ordering_token reg f = some ("-" ++ fi.field_path)) ∧
    (∀ f, strStartsWith f "-" = false → findEntry reg f = none →
      resolve_ordering_token reg f = none) ∧
    (∀ s, get_field_values req ORDERING_PARAM = some (.vStr s) → s ≠ "" →
      (∀ f ∈ ((strSplitOn ',' s).map strTrim).filter (fun f => f != ""),
        resolve_ordering_token reg f = none) →
      apply_ordering reg req = []) := by
  have main : ∀ s, get_field_values req ORDERING_PARAM = some (.vStr s) →
      s ≠ "" →
      apply_ordering reg req =
        (((strSplitOn ',' s).map strTrim).filter (fun f => f != "")).filterMap
          (resolve_ordering_token reg) := by
    intro s h hs
    have hp : pyTruthy (.vStr s) = true := by
      simp [pyTruthy, hs]
    simp only [apply_ordering, h, hp, if_true, Bool.not_true,
      Bool.false_eq_true, if_false]
    exact apply_ordering_tokens reg _
  refine ⟨?_, main, ?_, ?_, ?_⟩
  · intro fi h hfind hpath
    have hres : resolve_ordering_token reg "-id" = some "-id" := by
      simp [resolve_ordering_token,
        show strStartsWith "-id" "-" = true from rfl,
        show strDropN "-id" 1 = "id" from rfl, hfind, hpath]
    have hsplit : ((strSplitOn ',' "-id").map strTrim).filter
        (fun f => f != "") = ["-id"] := rfl
    simp [apply_ordering, h, DEFAULT_ORDERING, pyTruthy, hsplit, hres]
  · intro f fi h1 h2
    simp [resolve_ordering_token, h1, h2]
  · intro f h1 h2
    simp [resolve_ordering_token, h1, h2]
  · intro s h hs hall
    rw [main s h hs]
    exact List.filterMap_eq_nil_iff.mpr hall

/-- C3 counterexample: every token of the supplied ordering value is
unregistered and the id field is registered, so the claim demands the
default "-id" list; the code returns the empty list. -/
theorem apply_ordering_counterexample :
    apply_ordering productRegistry [("ordering", ["zzz"])] = [] ∧
    (findEntry productRegistry "id").isSome = true := ⟨rfl, rfl⟩

theorem apply_ordering_witness :
    apply_ordering productRegistry [("ordering", ["-price,name,zzz"])] =
      (((strSplitOn ',' "-price,name,zzz").map strTrim).filter
        (fun f => f != "")).filterMap
        (resolve_ordering_token productRegistry) :=
  (apply_ordering_amended productRegistry _).2.1 "-price,name,zzz" rfl
    (by decide)

/-- Membership of the lookup kept by the permitted-set guard. -/
theorem contains_ite (fi : FieldInfo) (l : String)
    (hdef : fi.lookups.contains fi.default_lookup = true) :
    fi.lookups.contains
      (if fi.lookups.contains l then l else fi.default_lookup) = true := by
  split
  · rename_i h
    exact h
  · exact hdef

/-- C4: building a single-field predicate is total, and lookup resolution
always lands inside the permitted set when the default lookup is a
member: a supplied lookup outside the set falls back to the default, and
every emitted fragment is either the separate is-null test (for an empty
value) or carries the resolved, permitted lookup. -/
theorem lookup_fallback (fi : FieldInfo) (lookup : Option String)
    (reg : Registry) (req : Request) (field_name : String)
    (v : Option Value) (q : Q)
    (hdef : fi.lookups.contains fi.default_lookup = true)
    (hfind : findEntry reg field_name = some fi)
    (hbuild : build_field_filter reg req field_name v lookup = some q) :
    fi.lookups.contains (resolve_lookup lookup fi) = true ∧
    (q = .cond fi.field_path "isnull" (.vBool true) ∨
     ∃ cv, q = .cond fi.field_path (resolve_lookup lookup fi) cv) := by
  constructor
  · exact contains_ite fi _ hdef
  · unfold build_field_filter at hbuild
    rw [hfind] at hbuild
    cases hfil : fi.filterable with
    | false => simp [hfil] at hbuild
    | true =>
      simp only [hfil, Bool.not_true, Bool.false_eq_true, if_false] at hbuild
      cases v with
      | some w =>
        simp only [] at hbuild
        by_cases he : isEmptyStr w = true
        · simp only [he, if_true] at hbuild
          exact Or.inl (Option.some.inj hbuild).symm
        · rw [Bool.not_eq_true] at he
          simp only [he, Bool.false_eq_true, if_false] at hbuild
          exact Or.inr ⟨_, (Option.some.inj hbuild).symm⟩
      | none =>
        cases hgv : get_field_values req field_name with
        | none => simp [hgv] at hbuild
        | some w =>
          simp only [hgv] at hbuild
          by_cases he : isEmptyStr w = true
          · simp only [he, if_true] at hbuild
            exact Or.inl (Option.some.inj hbuild).symm
          · rw [Bool.not_eq_true] at he
            simp only [he, Bool.false_eq_true, if_false] at hbuild
            exact Or.inr ⟨_, (Option.some.inj hbuild).symm⟩

theorem lookup_fallback_witness :
    productNameInfo.lookups.contains (resolve_lookup (some "gt") productNameInfo) = true ∧
    (Q.cond productNameInfo.field_path "icontains" (.vStr "x") =
       .cond productNameInfo.field_path "isnull" (.vBool true) ∨
     ∃ cv, Q.cond productNameInfo.field_path "icontains" (.vStr "x") =
       .cond productNameInfo.field_path (resolve_lookup (some "gt") productNameInfo) cv) :=
  lookup_fallback productNameInfo (some "gt") productRegistry [] "name"
    (some (.vStr "x"))
    (.cond productNameInfo.field_path "icontains" (.vStr "x")) rfl rfl rfl

/-- C7 (amended): an empty-string value — explicit, or pulled from the
request — makes the builder emit the is-null test on the field path; but
an absent value makes the builder return no predicate at all, not an
is-null test. -/
theorem empty_value_isnull_amended (reg : Registry) (req : Request)
    (field_name : String) (fi : FieldInfo)
    (hfind : findEntry reg field_name = some fi)
    (hfil : fi.filterable = true) :
    (build_field_filter reg req field_name (some (.vStr "")) none =
      some (.cond fi.field_path "isnull" (.vBool true))) ∧
    (get_field_values req field_name = some (.vStr "") →
      build_field_filter reg req field_name none none =
        some (.cond fi.field_path "isnull" (.vBool true))) ∧
    (get_field_values req field_name = none →
      build_field_filter reg req field_name none none = none) := by
  refine ⟨?_, ?_, ?_⟩
  · simp [build_field_filter, hfind, hfil, isEmptyStr]
  · intro h
    simp [build_field_filter, hfind, hfil, h, isEmptyStr]
  · intro h
    simp [build_field_filter, hfind, hfil, h]

/-- C7 counterexample: name is registered and filterable but absent from
the request, and the claim demands an is-null fragment; the builder
returns none. -/
theorem empty_value_isnull_counterexample :
    ((findEntry productRegistry "name").map (fun fi => fi.filterable)) = some true ∧
    build_field_filter productRegistry [] "name" none none = none := ⟨rfl, rfl⟩

theorem empty_value_isnull_witness :
    build_field_filter productRegistry [] "name" (some (.vStr "")) none =
      some (.cond productNameInfo.field_path "isnull" (.vBool true)) :=
  (empty_value_isnull_amended productRegistry [] "name" productNameInfo rfl rfl).1

/-- C5: group nodes reduce left-to-right: an empty conditions list and a
first condition resolving to nothing both make the group nothing; each
later condition resolving to nothing is skipped; a resolving condition
combines with qand under AND, qor under OR, and qand for any other
operator string (after the warning logged in the source).  The operator
is upper-cased once per group. -/
theorem group_reduction (reg : Registry) (req : Request) (op : String) :
    (build_filter_object reg req (.group op []) = none) ∧
    (∀ c cs, build_filter_object reg req c = none →
      build_filter_object reg req (.group op (c :: cs)) = none) ∧
    (∀ c cs q0, build_filter_object reg req c = some q0 →
      build_filter_object reg req (.group op (c :: cs)) =
        some (combine_conditions reg req (strUpper op) q0 cs)) ∧
    (∀ q0, combine_conditions reg req (strUpper op) q0 [] = q0) ∧
    (∀ q0 c cs, build_filter_object reg req c = none →
      combine_conditions reg req (strUpper op) q0 (c :: cs) =
        combine_conditions reg req (strUpper op) q0 cs) ∧
    (∀ q0 c cs nq, build_filter_object reg req c = some nq →
      strUpper op = "AND" →
      combine_conditions reg req (strUpper op) q0 (c :: cs) =
        combine_conditions reg req (strUpper op) (qAnd q0 nq) cs) ∧
    (∀ q0 c cs nq, build_filter_object reg req c = some nq →
      strUpper op = "OR" →
      combine_conditions reg req (strUpper op) q0 (c :: cs) =
        combine_conditions reg req (strUpper op) (qOr q0 nq) cs) ∧
    (∀ q0 c cs nq, build_filter_object reg req c = some nq →
      strUpper op ≠ "AND" → strUpper op ≠ "OR" →
      combine_conditions reg req (strUpper op) q0 (c :: cs) =
        combine_conditions reg req (strUpper op) (qAnd q0 nq) cs) := by
  refine ⟨?_, ?_, ?_, ?_, ?_, ?_, ?_, ?_⟩
  · simp [build_filter_object]
  · intro c cs hc
    simp [build_filter_object, hc]
  · intro c cs q0 hc
    simp [build_filter_object, hc]
  · intro q0
    simp [combine_conditions]
  · intro q0 c cs hc
    simp [combine_conditions, hc]
  · intro q0 c cs nq hc hop
    simp [combine_conditions, hc, hop]
  · intro q0 c cs nq hc hop
    simp [combine_conditions, hc, hop]
  · intro q0 c cs nq hc hop1 hop2
    simp [combine_conditions, hc, hop1, hop2]

theorem group_reduction_witness :
    build_filter_object productRegistry [] (.group "and" []) = none ∧
    build_filter_object productRegistry [] (.group "and" [.invalid]) = none ∧
    build_filter_object productRegistry [] (.group "and" [wLeaf, .invalid]) =
      some (combine_conditions productRegistry [] (strUpper "and")
        (.cond "name" "icontains" (.vStr "x")) [.invalid]) ∧
    combine_conditions productRegistry [] (strUpper "and")
      (.cond "name" "icontains" (.vStr "x")) [] =
      .cond "name" "icontains" (.vStr "x") ∧
    combine_conditions productRegistry [] (strUpper "and")
      (.cond "name" "icontains" (.vStr "x")) [.invalid] =
      combine_conditions productRegistry [] (strUpper "and")
        (.cond "name" "icontains" (.vStr "x")) [] ∧
    combine_conditions productRegistry [] (strUpper "and")
      (.cond "name" "icontains" (.vStr "x")) [wLeaf] =
      combine_conditions productRegistry [] (strUpper "and")
        (qAnd (.cond "name" "icontains" (.vStr "x"))
          (.cond "name" "icontains" (.vStr "x"))) [] ∧
    combine_conditions productRegistry [] (strUpper "or")
      (.cond "name" "icontains" (.vStr "x")) [wLeaf] =
      combine_conditions productRegistry [] (strUpper "or")
        (qOr (.cond "name" "icontains" (.vStr "x"))
          (.cond "name" "icontains" (.vStr "x"))) [] ∧
    combine_conditions productRegistry [] (strUpper "xor")
      (.cond "name" "icontains" (.vStr "x")) [wLeaf] =
      combine_conditions productRegistry [] (strUpper "xor")
        (qAnd (.cond "name" "icontains" (.vStr "x"))
          (.cond "name" "icontains" (.vStr "x"))) [] :=
  ⟨(group_reduction productRegistry [] "and").1,
   (group_reduction productRegistry [] "and").2.1 .invalid [] rfl,
   (group_reduction productRegistry [] "and").2.2.1 wLeaf [.invalid] _ rfl,
   (group_reduction productRegistry [] "and").2.2.2.1 _,
   (group_reduction productRegistry [] "and").2.2.2.2.1 _ .invalid [] rfl,
   (group_reduction productRegistry [] "and").2.2.2.2.2.1 _ wLeaf [] _ rfl rfl,
   (group_reduction productRegistry [] "or").2.2.2.2.2.2.1 _ wLeaf [] _ rfl rfl,
   (group_reduction productRegistry [] "xor").2.2.2.2.2.2.2 _ wLeaf [] _ rfl
     (by decide) (by decide)⟩

/-- get_filterable_fields is the filterMap of its per-entry body. -/
theorem gff_eq_filterMap (reg : Registry) :
    get_filterable_fields reg = reg.filterMap gff_entry := by
  simpa using foldl_opt_append gff_entry reg []

/-- C9 (amended): for every non-internal registry entry,
get_filterable_fields reports searchable, lookups, default lookup and
range-filter from the registry entry, but reports filterable as the
constant true regardless of the entry's filterable flag. -/
theorem filterable_fields_flags_amended (reg : Registry)
    (field_name : String) (fi : FieldInfo)
    (hmem : (field_name, fi) ∈ reg)
    (hint : strStartsWith field_name "_" = false) :
    ∃ meta, (field_name, meta) ∈ get_filterable_fields reg ∧
      meta.searchable = fi.searchable ∧
      meta.filterable = true ∧
      meta.orderable = true ∧
      meta.lookups = fi.lookups ∧
      meta.default_lookup = fi.default_lookup ∧
      meta.range_filter = fi.range_filter := by
  rw [gff_eq_filterMap]
  refine ⟨⟨field_name, fi.type, true, fi.searchable, true, fi.lookups,
      fi.default_lookup, fi.range_filter,
      (if fi.type = "enum" then
        (match fi.enum_class with
         | some tuples => if tuples.isEmpty then none else some tuples
         | none => none)
       else none)⟩, ?_, rfl, rfl, rfl, rfl, rfl, rfl⟩
  exact List.mem_filterMap.mpr ⟨(field_name, fi), hmem, by simp [gff_entry, hint]⟩

/-- C9 counterexample: the registry entry for price carries filterable
false, but get_filterable_fields reports filterable true for it. -/
theorem filterable_fields_flags_counterexample :
    ((findEntry c9registry "price").map (fun fi => fi.filterable)) = some false ∧
    ((assocFind (get_filterable_fields c9registry) "price").map
      (fun m => m.filterable)) = some true := ⟨rfl, rfl⟩

theorem filterable_fields_flags_witness :
    ∃ meta, ("price", meta) ∈ get_filterable_fields c9registry ∧
      meta.searchable = c9PriceInfo.searchable ∧
      meta.filterable = true ∧
      meta.orderable = true ∧
      meta.lookups = c9PriceInfo.lookups ∧
      meta.default_lookup = c9PriceInfo.default_lookup ∧
      meta.range_filter = c9PriceInfo.range_filter :=
  filterable_fields_flags_amended c9registry "price" c9PriceInfo
    (List.get?_mem (show c9registry.get? 3 = some ("price", c9PriceInfo) from rfl))
    rfl

/-- C10: for a declared field, the registry searchable flag is exactly
the per-field configuration flag (default false) gated by the
search_fields allow-list, so listing a name in search_fields never by
itself makes it searchable; an annotated field defaults to searchable,
gated by the same allow-list. -/
theorem searchable_gating (cfg : Config) (reg : Registry)
    (f : FieldDescriptor)
    (hskip : (f.auto_created && !f.concrete) = false)
    (hnew : findEntry reg f.name = none) :
    (∃ fi, findEntry (register_field cfg reg f none) f.name = some fi ∧
      fi.searchable = (((f.filter_config.getD no_field_config).searchable.getD false) &&
        (cfg.search_fields.isEmpty || cfg.search_fields.contains f.name)) ∧
      fi.is_annotated = false) ∧
    ((f.filter_config.getD no_field_config).searchable.getD false = false →
      ∀ fi, findEntry (register_field cfg reg f none) f.name = some fi →
        fi.searchable = false) ∧
    (∀ field_name field_type, findEntry reg field_name = none →
      ∃ fi, findEntry (register_annotated_field cfg reg field_name field_type)
          field_name = some fi ∧
        fi.searchable = (cfg.search_fields.isEmpty ||
          cfg.search_fields.contains field_name) ∧
        fi.is_annotated = true) := by
  have hstep : register_field cfg reg f none = reg ++ [(f.name,
      { field_path := f.name, field := some f, type := get_field_type f,
        searchable :=
          if !cfg.search_fields.isEmpty && !cfg.search_fields.contains f.name
          then false
          else (f.filter_config.getD no_field_config).searchable.getD false,
        filterable :=
          if !cfg.filter_fields.isEmpty && !cfg.filter_fields.contains f.name
          then false else true,
        lookups := (f.filter_config.getD no_field_config).lookups.getD
          (get_lookups_for_type (get_field_type f)),
        default_lookup := (f.filter_config.getD no_field_config).default.getD
          (get_default_lookup (get_field_type f)),
        range_filter := (f.filter_config.getD no_field_config).range_filter.getD
          (["date", "datetime", "integer", "decimal"].contains (get_field_type f)),
        enum_class := if get_field_type f = "enum" then f.enum_choices else none,
        is_annotated := false })] := by
    simp [register_field, hskip, hnew]
  refine ⟨?_, ?_, ?_⟩
  · refine ⟨_, by rw [hstep]; exact findEntry_append_single reg f.name _ hnew,
      ?_, rfl⟩
    exact allow_gate _ _ _
  · intro hs0 fi hfi
    rw [hstep, findEntry_append_single reg f.name _ hnew] at hfi
    have := Option.some.inj hfi
    rw [← this]
    show (if !cfg.search_fields.isEmpty && !cfg.search_fields.contains f.name
          then false
          else (f.filter_config.getD no_field_config).searchable.getD false) = false
    rw [allow_gate, hs0]
    simp
  · intro field_name field_type hn
    have hstep2 : register_annotated_field cfg reg field_name field_type =
        reg ++ [(field_name,
        { field_path := field_name, field := none, type := field_type,
          searchable :=
            if !cfg.search_fields.isEmpty && !cfg.search_fields.contains field_name
            then false else true,
          filterable :=
            if !cfg.filter_fields.isEmpty && !cfg.filter_fields.contains field_name
            then false else true,
          lookups := get_lookups_for_type field_type,
          default_lookup := get_default_lookup field_type,
          range_filter := false, enum_class := none,
          is_annotated := true })] := by
      simp [register_annotated_field, hn]
    refine ⟨_, by rw [hstep2]; exact findEntry_append_single reg field_name _ hn,
      ?_, rfl⟩
    show (if !cfg.search_fields.isEmpty && !cfg.search_fields.contains field_name
          then false else true) =
      (cfg.search_fields.isEmpty || cfg.search_fields.contains field_name)
    rw [allow_gate]
    simp

theorem searchable_gating_witness :
    (∃ fi, findEntry (register_field ⟨[], ["plain"]⟩ [] fdPlain none)
        fdPlain.name = some fi ∧
      fi.searchable = (((fdPlain.filter_config.getD no_field_config).searchable.getD false) &&
        ((⟨[], ["plain"]⟩ : Config).search_fields.isEmpty ||
         (⟨[], ["plain"]⟩ : Config).search_fields.contains fdPlain.name)) ∧
      fi.is_annotated = false) ∧
    (∃ fi, findEntry (register_annotated_field ⟨[], ["plain"]⟩ [] "full_name" "text")
        "full_name" = some fi ∧
      fi.searchable = ((⟨[], ["plain"]⟩ : Config).search_fields.isEmpty ||
        (⟨[], ["plain"]⟩ : Config).search_fields.contains "full_name") ∧
      fi.is_annotated = true) :=
  ⟨(searchable_gating ⟨[], ["plain"]⟩ [] fdPlain rfl rfl).1,
   (searchable_gating ⟨[], ["plain"]⟩ [] fdPlain rfl rfl).2.2 "full_name" "text" rfl⟩

end DynamicFilters
